import Mathlib

/-!
Verification of the Tradition Explorer orchestration layer.

The repository is a single-page React application.  The definitions below are
a shallow embedding of its data model (src/types.ts, src/constants.ts) and of
the orchestration handlers (`handleGenerate`, `handleSendDialogue`,
`handleToggleTradition`, the history persistence effect and the section
render) found in src/index.tsx and src/unnamed/part_000.  Asynchronous
handlers are embedded as pure state-transition functions: the awaited model
invocation becomes an explicit argument describing the outcome of the single
network call, and React `setState` calls become the returned state.
-/

namespace TraditionExplorer

/-- The ten fixed belief/ethics systems, from `type Tradition` in
src/types.ts (the same union appears in src/index.tsx). -/
inductive Tradition
  | fundamentalistChristianity
  | judaism
  | stoicism
  | mainstreamChristianity
  | catholicism
  | islam
  | humanism
  | buddhism
  | taoism
  | hinduism
  deriving DecidableEq, Repr, Fintype

/-- The string literal of each `Tradition` union member. -/
def Tradition.name : Tradition → String
  | .fundamentalistChristianity => "Fundamentalist Christianity"
  | .judaism => "Judaism"
  | .stoicism => "Stoicism"
  | .mainstreamChristianity => "Mainstream Christianity"
  | .catholicism => "Catholicism"
  | .islam => "Islam"
  | .humanism => "Humanism"
  | .buddhism => "Buddhism"
  | .taoism => "Taoism"
  | .hinduism => "Hinduism"

/-- `TRADITIONS` from src/constants.ts (same list in src/index.tsx). -/
def TRADITIONS : List Tradition :=
  [ .fundamentalistChristianity, .judaism, .stoicism, .mainstreamChristianity,
    .catholicism, .islam, .humanism, .buddhism, .taoism, .hinduism ]

/-- The six report sections, from `type SectionKey` in src/types.ts. -/
inductive SectionKey
  | summary
  | comparison
  | discussion
  | deepDive
  | quotesAndReferences
  | conclusion
  deriving DecidableEq, Repr

/-- The string literal of each `SectionKey` union member. -/
def SectionKey.name : SectionKey → String
  | .summary => "summary"
  | .comparison => "comparison"
  | .discussion => "discussion"
  | .deepDive => "deep dive"
  | .quotesAndReferences => "quotes and references"
  | .conclusion => "conclusion"

/-- The six section keys in the order of the `SECTION_LABELS` object of
src/index.tsx (first variant) and src/constants.ts, which drives the render
loop `Object.keys(SECTION_LABELS)`. -/
def sectionKeys : List SectionKey :=
  [ .summary, .comparison, .discussion, .deepDive, .quotesAndReferences, .conclusion ]

/-- The six section key strings, as they appear in the `required` list of the
response schema built by `handleGenerate` (src/index.tsx). -/
def sectionKeyNames : List String :=
  [ "summary", "comparison", "discussion", "deep dive", "quotes and references",
    "conclusion" ]

/-- JavaScript `v || fallback` on a possibly-absent string: `undefined` and
the empty string are falsy and select the fallback. -/
def jsOrString (v : Option String) (fallback : String) : String :=
  match v with
  | none => fallback
  | some s => if s = "" then fallback else s

/-- A whitespace character as `String.prototype.trim()` strips it (the
common cases: space, tab, newline, carriage return). -/
def isTrimmedSpace (c : Char) : Bool :=
  c = ' ' || c = '\t' || c = '\n' || c = '\r'

/-- JavaScript `s.trim()`: the string with leading and trailing whitespace
removed. -/
def jsTrim (s : String) : String :=
  String.mk (((s.data.dropWhile isTrimmedSpace).reverse.dropWhile isTrimmedSpace).reverse)

/-- `handleToggleTradition` from src/unnamed/part_000 (lines 44–50); the
tradition buttons of both src/index.tsx variants inline the same body:
remove the tradition if selected, otherwise append it only when fewer than 3
are selected. -/
def handleToggleTradition (selected : List Tradition) (t : Tradition) : List Tradition :=
  if t ∈ selected then selected.filter (fun x => x ≠ t)
  else if selected.length < 3 then selected ++ [t]
  else selected

/-- A user operation on the tradition selection control: a tradition button
press (`handleToggleTradition`) or the "Clear selection" button of
src/unnamed/part_000 (line 281), which sets the selection to `[]`. -/
inductive SelectionOp
  | toggle (t : Tradition)
  | clear

/-- Apply one user operation on the selection control. -/
def applySelectionOp (selected : List Tradition) : SelectionOp → List Tradition
  | .toggle t => handleToggleTradition selected t
  | .clear => []

/-- A chat transcript entry, from `interface ChatMessage` in src/index.tsx. -/
inductive ChatRole
  | user
  | model
  deriving DecidableEq, Repr

/-- `interface ChatMessage` of src/index.tsx: a role-tagged text turn. -/
structure ChatMessage where
  role : ChatRole
  text : String
  deriving DecidableEq, Repr

/-- A JSON value, the runtime result of `JSON.parse` on the model response
text in `handleGenerate` (src/index.tsx).  Object fields keep insertion
order, as JavaScript objects do for string keys. -/
inductive Json
  | null
  | bool (b : Bool)
  | num (n : Int)
  | str (s : String)
  | arr (elems : List Json)
  | obj (fields : List (String × Json))

/-- Whether a JSON value is an object carrying the given property. -/
def jsonHasKey (j : Json) (k : String) : Bool :=
  match j with
  | .obj fields => fields.any (fun p => p.1 = k)
  | _ => false

/-- Whether a parsed response contains all six required `SectionKey`
top-level properties (the `required` list of the response schema). -/
def hasSixSectionKeys (j : Json) : Bool :=
  sectionKeyNames.all (fun k => jsonHasKey j k)

/-- A node of the `responseSchema` object literal built inside
`handleGenerate` (src/index.tsx lines 144–168): either `\x7btype: Type.STRING\x7d`
or `\x7btype: Type.OBJECT, properties, required\x7d`. -/
inductive Schema
  | string
  | object (properties : List (String × Schema)) (required : List String)

/-- Insertion of one property into a JavaScript object accumulator, as the
`reduce` over `selectedTraditions` does: an existing key is overwritten in
place, a new key is appended in insertion order. -/
def objInsert (fields : List (String × Schema)) (k : String) (v : Schema) :
    List (String × Schema) :=
  if fields.any (fun p => p.1 = k) then
    fields.map (fun p => if p.1 = k then (k, v) else p)
  else fields ++ [(k, v)]

/-- `traditionSchemaProperties` from `handleGenerate` (src/index.tsx lines
144–147): `selectedTraditions.reduce` building one `\x7btype: Type.STRING\x7d`
property per selected tradition. -/
def traditionSchemaProperties (trads : List Tradition) : List (String × Schema) :=
  trads.foldl (fun acc t => objInsert acc t.name Schema.string) []

/-- `sectionSchema` from `handleGenerate` (src/index.tsx line 148): an object
schema whose properties come from the selected traditions and whose
`required` list is `selectedTraditions` itself. -/
def sectionSchema (trads : List Tradition) : Schema :=
  .object (traditionSchemaProperties trads) (trads.map Tradition.name)

/-- The `responseSchema` object literal of `handleGenerate` (src/index.tsx
lines 157–168): the six fixed section properties, each the section schema,
all six required. -/
def responseSchema (trads : List Tradition) : Schema :=
  .object
    [ ("summary", sectionSchema trads)
    , ("comparison", sectionSchema trads)
    , ("discussion", sectionSchema trads)
    , ("deep dive", sectionSchema trads)
    , ("quotes and references", sectionSchema trads)
    , ("conclusion", sectionSchema trads) ]
    sectionKeyNames

/-- `DEFAULT_SYSTEM_PROMPT` of src/index.tsx (first variant). -/
def DEFAULT_SYSTEM_PROMPT : String :=
  "You are a world-class scholarly mentor. Respond ONLY in valid JSON.\n" ++
  "Analyze the provided question from the perspective of each selected tradition.\n" ++
  "Sections to provide: summary, comparison, discussion, deep dive, quotes and references, conclusion.\n" ++
  "Format: \x7b \"section_name\": \x7b \"Tradition Name\": \"Markdown content...\" \x7d \x7d"

/-- The request descriptor passed to `ai.models.generateContent` by
`handleGenerate` (src/index.tsx lines 151–170). -/
structure GenerateRequest where
  model : String
  contents : String
  systemInstruction : String
  responseMimeType : String
  schema : Schema

/-- The request built by `handleGenerate` (src/index.tsx lines 151–170) once
the validation guard has passed. -/
def buildGenerateRequest (question : String) (trads : List Tradition) : GenerateRequest :=
  { model := "gemini-3-pro-preview"
  , contents := "Detailed analysis of: \"" ++ question ++ "\" from: " ++
      String.intercalate ", " (trads.map Tradition.name) ++ "."
  , systemInstruction := DEFAULT_SYSTEM_PROMPT
  , responseMimeType := "application/json"
  , schema := responseSchema trads }

/-- The result record assembled by `handleGenerate` (src/index.tsx lines
172–179) and prepended to history.  `data` holds whatever `JSON.parse`
returned: the handler performs no schema-shape validation.  The `id` and
`timestamp` stamps are opaque to every property proved here and are omitted. -/
structure StoredResult where
  question : String
  selectedTraditions : List Tradition
  data : Json
  chatHistory : List ChatMessage

/-- Outcome of one `handleGenerate` run as observable by the caller. -/
inductive GenOutcome
  | rejected
  | success (res : StoredResult)
  | alertFailure

/-- The outcome of the single awaited `ai.models.generateContent` call inside
`handleGenerate`: either the call throws (network/service error, `.error`),
or it returns a response whose `response.text || "\x7b\x7d"` string is given to
`JSON.parse` — `.ok (some j)` when that parse succeeds with value `j`
(an empty or absent text parses as the empty object), `.ok none` when the
text is not valid JSON and `JSON.parse` throws.  `JSON.parse` itself is the
platform builtin and is represented by its outcome. -/
inductive InvokeResult
  | ok (parsed : Option Json)
  | error (msg : String)

/-- The observable effect of one `handleGenerate` run (src/index.tsx lines
139–192, second variant lines 581–640 identical in all respects modelled
here): the surfaced outcome, the history list afterwards, and whether the
network call was made. -/
structure GenRun where
  outcome : GenOutcome
  history : List StoredResult
  requestMade : Bool

/-- `handleGenerate` from src/index.tsx: the guard
`if (!question || selectedTraditions.length === 0) return;` rejects before
any network call; otherwise the response text is parsed, a `StoredResult` is
assembled and prepended to history on success, and any thrown error (parse
failure included) is caught and surfaced as an alert with history left
untouched. -/
def handleGenerate (question : String) (trads : List Tradition)
    (history : List StoredResult) (invoke : InvokeResult) : GenRun :=
  if question = "" ∨ trads = [] then ⟨.rejected, history, false⟩
  else
    match invoke with
    | .ok none => ⟨.alertFailure, history, true⟩
    | .ok (some data) =>
        let res : StoredResult := ⟨question, trads, data, []⟩
        ⟨.success res, res :: history, true⟩
    | .error _ => ⟨.alertFailure, history, true⟩

/-- Outcome of the single awaited `chat.sendMessage` call inside
`handleSendDialogue`: a response text (possibly empty/absent) or a thrown
error. -/
inductive DialogueInvoke
  | ok (text : Option String)
  | failure

/-- `DialogueInvoke.isOk o = true` iff the model call settled successfully. -/
def DialogueInvoke.isOk : DialogueInvoke → Bool
  | .ok _ => true
  | .failure => false

/-- The dialogue-relevant component state read and written by
`handleSendDialogue` (src/index.tsx lines 194–219): the input box, the
loading flag, and the current result's chat transcript (`none` when
`currentResult` is null). -/
structure SessionState where
  dialogueInput : String
  isDialogueLoading : Bool
  chatHistory : Option (List ChatMessage)
  deriving DecidableEq, Repr

/-- `handleSendDialogue` from src/index.tsx (lines 194–219), as the
transition from the state at entry to the state after the awaited call
settles.  The guard
`if (!dialogueInput.trim() || isDialogueLoading || !currentResult) return;`
makes the call a no-op; otherwise the input is cleared, and on success the
user message plus the model reply (`response.text || "Response unavailable."`)
are appended and persisted via `setCurrentResult`/`setHistory`, while on a
thrown error the catch block only alerts: neither the user message nor any
placeholder is persisted. -/
def handleSendDialogue (s : SessionState) (outcome : DialogueInvoke) : SessionState :=
  if jsTrim s.dialogueInput = "" ∨ s.isDialogueLoading = true ∨ s.chatHistory.isNone then s
  else
    match s.chatHistory with
    | none => s
    | some transcript =>
        match outcome with
        | .ok t =>
            ⟨"", false, some (transcript ++
              [⟨.user, s.dialogueInput⟩, ⟨.model, jsOrString t "Response unavailable."⟩])⟩
        | .failure => ⟨"", false, some transcript⟩

/-- The transcript after a sequence of dialogue sends, each awaited before
the next: for each `(message, outcome)` pair the input box holds the message,
the loading flag is back to false, and `handleSendDialogue` runs to
settlement. -/
def runSends (transcript : List ChatMessage) (sends : List (String × DialogueInvoke)) :
    List ChatMessage :=
  sends.foldl
    (fun tr send => ((handleSendDialogue ⟨send.1, false, some tr⟩ send.2).chatHistory).getD tr)
    transcript

/-- The two transcript entries a send contributes: user message plus model
reply on success, nothing on failure (the catch block of
`handleSendDialogue` persists nothing). -/
def sendPairEntries (m : String) : DialogueInvoke → List ChatMessage
  | .ok t => [⟨.user, m⟩, ⟨.model, jsOrString t "Response unavailable."⟩]
  | .failure => []

/-- The entries contributed to the transcript by a sequence of sends, in
send order. -/
def transcriptOfSends (sends : List (String × DialogueInvoke)) : List ChatMessage :=
  sends.foldr (fun p acc => sendPairEntries p.1 p.2 ++ acc) []

/-- The in-flight view of the dialogue session: the `isDialogueLoading` flag
of src/index.tsx and the number of `chat.sendMessage` calls currently
outstanding. -/
structure DialogueFlight where
  isDialogueLoading : Bool
  outstanding : Nat
  deriving DecidableEq, Repr

/-- An event at the dialogue session boundary: the user initiates a send
(`handleSendDialogue` entry, src/index.tsx lines 194–198), or an in-flight
call settles (the `finally` block, line 216–218). -/
inductive DialogueEvent
  | initiate (input : String) (hasResult : Bool)
  | settle

/-- Initial dialogue session state: not loading, nothing outstanding. -/
def dialogueInit : DialogueFlight := ⟨false, 0⟩

/-- One step of the dialogue session at the send/settle granularity:
initiating while the guard fails (blank input, already loading, or no
current result) changes nothing and starts no call; an accepted initiate
sets the loading flag and starts one call; settlement clears the flag
(`finally \x7b setIsDialogueLoading(false) \x7d`) and retires the call. -/
def dialogueStep (s : DialogueFlight) : DialogueEvent → DialogueFlight
  | .initiate input hasResult =>
      if jsTrim input = "" ∨ s.isDialogueLoading = true ∨ hasResult = false then s
      else ⟨true, s.outstanding + 1⟩
  | .settle =>
      if s.isDialogueLoading = true then ⟨false, s.outstanding - 1⟩ else s

/-- The per-tradition content of one report section: a JavaScript object
with string values, read as `data[key][tradition]` (`TraditionContent` of
src/types.ts; an entry may be absent). -/
def TraditionContent : Type := Tradition → Option String

/-- `interface ComparisonResult` of src/types.ts / src/index.tsx: the typed
record held in component state and in history.  The mapped type
`\x7b[key in SectionKey]: TraditionContent\x7d` provides a section object for
every one of the six keys. -/
structure ComparisonResult where
  id : String
  question : String
  selectedTraditions : List Tradition
  timestamp : Nat
  data : SectionKey → TraditionContent
  chatHistory : List ChatMessage

/-- The section render expression of src/index.tsx line 329:
`currentResult.data[key][tradition] || "Analysis unavailable."`
(src/unnamed/part_000 line 383 is the same with placeholder
"No data provided for this perspective."). -/
def renderSectionCell (res : ComparisonResult) (key : SectionKey) (t : Tradition) : String :=
  jsOrString (res.data key t) "Analysis unavailable."

/-- `setHistory(prev => [res, ...prev])` from `handleGenerate`
(src/index.tsx line 182; src/unnamed/part_000 line 67 via
`setHistory(prev => [result, ...prev])`). -/
def addResultToHistory (res : ComparisonResult) (history : List ComparisonResult) :
    List ComparisonResult :=
  res :: history

/-- The browser-storage slot holding the serialized history list.  The
persistence effect (src/unnamed/part_000 lines 27–29) writes
`JSON.stringify(history)` under a fixed key and the initializer reads it
back with `JSON.parse`; serialization is the platform collaborator and is
represented by its round-trip: the slot holds the list it was last saved,
or nothing. -/
def HistoryStorage : Type := Option (List ComparisonResult)

/-- `localStorage.setItem(key, JSON.stringify(list))` of the persistence
effect: the slot now holds exactly `list`. -/
def saveHistory (list : List ComparisonResult) (_s : HistoryStorage) : HistoryStorage :=
  some list

/-- The history initializer of src/unnamed/part_000 lines 11–14:
`saved ? JSON.parse(saved) : []`. -/
def loadHistory (s : HistoryStorage) : List ComparisonResult :=
  s.getD []

/-- Modelled from the spec: the Fallback Orchestrator of
`generateComparison` (src/services/gemini.ts), which src/unnamed/part_000
imports but which is absent from src/.  Per spec §4.2/§4.3 a tier invocation
ends in success, an authentication failure, or another (transient) failure. -/
inductive TierOutcome
  | success (output : String)
  | authError
  | transientError (msg : String)
  deriving DecidableEq, Repr

/-- Modelled from the spec: the terminal states of the Fallback
Orchestrator's state machine (spec §4.3): `Done(tier, result)`,
`NeedsCredential`, or `Failed(lastError)` once every tier is exhausted. -/
inductive FallbackOutcome
  | done (tier : String) (output : String)
  | needsCredential
  | failed (lastError : Option String)
  deriving DecidableEq, Repr

/-- Modelled from the spec: the Fallback Orchestrator of
`generateComparison` (src/services/gemini.ts, absent from src/), spec §4.3:
tiers are tried strictly in order; success on a tier ends the run with that
tier's output; an authentication failure short-circuits the whole chain as
`NeedsCredential`; any other failure moves to the next tier, and exhausting
all tiers yields `Failed` with the last underlying error preserved.  The
second component of the result is the list of tiers actually invoked, in
invocation order. -/
def runFallback (invoke : String → TierOutcome) :
    List String → Option String → FallbackOutcome × List String
  | [], lastErr => (.failed lastErr, [])
  | tier :: rest, _ =>
      match invoke tier with
      | .success out => (.done tier out, [tier])
      | .authError => (.needsCredential, [tier])
      | .transientError e =>
          let r := runFallback invoke rest (some e)
          (r.1, tier :: r.2)

/-- A concrete two-tier invocation map where the first tier fails
transiently and the second succeeds. -/
def invokeTransientThenOk : String → TierOutcome :=
  fun tier => if tier = "gemini-3-pro-preview" then .transientError "503 overloaded"
              else .success "flash output"

/-- A concrete two-tier invocation map where the first tier fails with an
authentication error. -/
def invokeAuthFail : String → TierOutcome :=
  fun tier => if tier = "gemini-3-pro-preview" then .authError
              else .success "flash output"

/-! ## Helper lemmas -/

/-- One tradition toggle keeps the selection within the 3-element cap. -/
theorem toggle_length_le (l : List Tradition) (t : Tradition) (h : l.length ≤ 3) :
    (handleToggleTradition l t).length ≤ 3 := by
  unfold handleToggleTradition
  split
  · exact le_trans (List.length_filter_le _ _) h
  · split
    · rename_i hlt
      simp only [List.length_append, List.length_singleton]
      omega
    · exact h

/-- One tradition toggle preserves distinctness of the selection. -/
theorem toggle_nodup (l : List Tradition) (t : Tradition) (h : l.Nodup) :
    (handleToggleTradition l t).Nodup := by
  unfold handleToggleTradition
  split
  · exact h.filter _
  · rename_i hnotmem
    split
    · refine List.Nodup.append h (List.nodup_singleton t) ?_
      intro a ha hb
      rw [List.mem_singleton] at hb
      subst hb
      exact hnotmem ha
    · exact h

/-- Any sequence of toggles starting from a distinct selection keeps it
distinct. -/
theorem foldl_toggle_nodup (ops : List Tradition) (l : List Tradition) (h : l.Nodup) :
    (ops.foldl handleToggleTradition l).Nodup := by
  induction ops generalizing l with
  | nil => exact h
  | cons t rest ih => exact ih _ (toggle_nodup l t h)

/-- Any selection-control operation keeps the selection within the cap. -/
theorem selop_length_le (l : List Tradition) (op : SelectionOp) (h : l.length ≤ 3) :
    (applySelectionOp l op).length ≤ 3 := by
  cases op with
  | toggle t => exact toggle_length_le l t h
  | clear => simp [applySelectionOp]

/-- Any sequence of selection-control operations keeps the selection within
the cap. -/
theorem foldl_selop_length (ops : List SelectionOp) (l : List Tradition) (h : l.length ≤ 3) :
    (ops.foldl applySelectionOp l).length ≤ 3 := by
  induction ops generalizing l with
  | nil => exact h
  | cons op rest ih => exact ih _ (selop_length_le l op h)

/-! ## C7 — selection control bounds -/

/-- C7 counterexample: the claim says that after every user operation on the
selection control the selected set's size is between 1 and 3.  Starting from
the empty selection, toggling Stoicism on (a legal state of size 1) and then
pressing "Clear selection" leaves the selection empty: size 0, below the
claimed lower bound.  (Toggling Stoicism off instead of clearing gives the
same state.) -/
theorem c7_clear_breaks_lower_bound :
    applySelectionOp (applySelectionOp [] (SelectionOp.toggle Tradition.stoicism))
        SelectionOp.clear = [] ∧
    ¬(1 ≤ (applySelectionOp (applySelectionOp [] (SelectionOp.toggle Tradition.stoicism))
        SelectionOp.clear).length) := by
  constructor
  · rfl
  · decide

/-- C7 (amended): the selection control rejects a 4th tradition when 3 are
already selected (the toggle is a no-op), and after every user operation
(toggle on, toggle off, clear) the selected set's size is at most 3 — the
lower bound is 0, not 1, since clearing or toggling off the last tradition
empties the selection. -/
theorem c7_selection_upper_bound :
    (∀ (l : List Tradition) (t : Tradition), l.length = 3 → t ∉ l →
        handleToggleTradition l t = l) ∧
    (∀ (l : List Tradition) (op : SelectionOp), l.length ≤ 3 →
        (applySelectionOp l op).length ≤ 3) ∧
    (∀ ops : List SelectionOp, (ops.foldl applySelectionOp []).length ≤ 3) := by
  refine ⟨?_, selop_length_le, fun ops => foldl_selop_length ops [] (by simp)⟩
  intro l t hlen hmem
  unfold handleToggleTradition
  rw [if_neg hmem, if_neg (by omega)]

/-- C7 witness: the amended theorem applied at concrete inputs — a 4th
toggle on a full selection is a no-op, and concrete operations stay within
the cap. -/
theorem c7_selection_upper_bound_apply :
    (handleToggleTradition [Tradition.stoicism, Tradition.buddhism, Tradition.islam]
        Tradition.taoism = [Tradition.stoicism, Tradition.buddhism, Tradition.islam]) ∧
    ((applySelectionOp [Tradition.stoicism] SelectionOp.clear).length ≤ 3) ∧
    (([SelectionOp.toggle Tradition.stoicism, SelectionOp.clear].foldl
        applySelectionOp []).length ≤ 3) :=
  ⟨c7_selection_upper_bound.1 _ _ (by decide) (by decide),
   c7_selection_upper_bound.2.1 _ _ (by decide),
   c7_selection_upper_bound.2.2 _⟩

/-- One accepted dialogue send (non-blank input, not loading, result
present) appends exactly its contributed pair of entries: user message plus
model reply on success, nothing on failure. -/
theorem sendStep_eq (tr : List ChatMessage) (m : String) (o : DialogueInvoke)
    (hm : jsTrim m ≠ "") :
    ((handleSendDialogue ⟨m, false, some tr⟩ o).chatHistory).getD tr =
      tr ++ sendPairEntries m o := by
  cases o <;> simp [handleSendDialogue, sendPairEntries, hm]

/-- The transcript after a sequence of awaited sends is the starting
transcript followed by each send's contributed entries in send order. -/
theorem runSends_eq (sends : List (String × DialogueInvoke)) (tr : List ChatMessage)
    (h : ∀ p ∈ sends, jsTrim p.1 ≠ "") :
    runSends tr sends = tr ++ transcriptOfSends sends := by
  induction sends generalizing tr with
  | nil => simp [runSends, transcriptOfSends]
  | cons p rest ih =>
    have hm : jsTrim p.1 ≠ "" := h p (List.mem_cons_self p rest)
    have hrest : ∀ q ∈ rest, jsTrim q.1 ≠ "" := fun q hq => h q (List.mem_cons_of_mem _ hq)
    have hstep : runSends tr (p :: rest) = runSends (tr ++ sendPairEntries p.1 p.2) rest := by
      simp only [runSends, List.foldl_cons, sendStep_eq tr p.1 p.2 hm]
    rw [hstep, ih _ hrest]
    simp [transcriptOfSends, List.append_assoc]

/-- The entries contributed by a sequence of sends number two per
successful send. -/
theorem transcriptOfSends_length (sends : List (String × DialogueInvoke)) :
    (transcriptOfSends sends).length = 2 * sends.countP (fun p => p.2.isOk) := by
  induction sends with
  | nil => simp [transcriptOfSends]
  | cons p rest ih =>
    cases hp : p.2 <;>
      simp [transcriptOfSends, List.countP_cons, hp, DialogueInvoke.isOk,
        sendPairEntries] at ih ⊢ <;> omega

/-- Distinct traditions have distinct string names. -/
theorem tradition_name_injective : ∀ a b : Tradition, a.name = b.name → a = b := by
  decide

/-- The JavaScript `reduce` over a duplicate-free tradition list, inserting
one property per tradition into an accumulator object with fresh keys,
appends exactly one property per tradition, in order. -/
theorem foldl_objInsert_fresh (trads : List Tradition) (acc : List (String × Schema))
    (hdisj : ∀ t ∈ trads, ∀ p ∈ acc, p.1 ≠ t.name) (hnodup : trads.Nodup) :
    trads.foldl (fun a t => objInsert a t.name Schema.string) acc =
      acc ++ trads.map (fun t => (t.name, Schema.string)) := by
  induction trads generalizing acc with
  | nil => simp
  | cons t rest ih =>
    have hfresh : ¬(acc.any (fun p => p.1 = t.name) = true) := by
      simp only [List.any_eq_true]
      rintro ⟨p, hp, hpe⟩
      exact hdisj t (List.mem_cons_self t rest) p hp (by simpa using hpe)
    have hins : objInsert acc t.name Schema.string = acc ++ [(t.name, Schema.string)] := by
      unfold objInsert
      rw [if_neg hfresh]
    have hnodupRest : rest.Nodup := (List.nodup_cons.mp hnodup).2
    have htmem : t ∉ rest := (List.nodup_cons.mp hnodup).1
    have hdisjRest : ∀ u ∈ rest, ∀ p ∈ acc ++ [(t.name, Schema.string)], p.1 ≠ u.name := by
      intro u hu p hp
      rcases List.mem_append.mp hp with h1 | h2
      · exact hdisj u (List.mem_cons_of_mem _ hu) p h1
      · have hpt : p = (t.name, Schema.string) := by simpa using h2
        subst hpt
        intro he
        exact htmem (by rw [tradition_name_injective t u he]; exact hu)
    simp only [List.foldl_cons, hins, ih _ hdisjRest hnodupRest]
    simp

/-! ## C6 — the response schema is exact at both levels -/

/-- C6: for every valid input (non-empty question, 1–3 distinct selected
traditions) the built request's response schema is an object whose property
keys and `required` list are exactly the six fixed section keys, and every
section property's schema is an object whose property keys and `required`
list are exactly the selected traditions, each property of type string —
never more, never fewer at either level. -/
theorem c6_response_schema_exact (question : String) (trads : List Tradition)
    (hq : question ≠ "") (hlen : 1 ≤ trads.length ∧ trads.length ≤ 3)
    (hnodup : trads.Nodup) :
    ∃ props,
      (buildGenerateRequest question trads).schema = Schema.object props sectionKeyNames ∧
      props.map Prod.fst = sectionKeyNames ∧
      ∀ p ∈ props, p.2 = Schema.object (trads.map (fun t => (t.name, Schema.string)))
        (trads.map Tradition.name) := by
  refine ⟨[ ("summary", sectionSchema trads), ("comparison", sectionSchema trads),
    ("discussion", sectionSchema trads), ("deep dive", sectionSchema trads),
    ("quotes and references", sectionSchema trads), ("conclusion", sectionSchema trads) ],
    rfl, rfl, ?_⟩
  have hsec : sectionSchema trads =
      Schema.object (trads.map (fun t => (t.name, Schema.string)))
        (trads.map Tradition.name) := by
    unfold sectionSchema traditionSchemaProperties
    rw [foldl_objInsert_fresh trads [] (by simp) hnodup]
    simp
  intro p hp
  simp only [List.mem_cons, List.not_mem_nil, or_false] at hp
  rcases hp with rfl | rfl | rfl | rfl | rfl | rfl <;> exact hsec

/-- C6 witness: the theorem applied at the example scenario — the question
"The nature of forgiveness" over Stoicism and Buddhism. -/
theorem c6_response_schema_exact_apply :
    ∃ props,
      (buildGenerateRequest "The nature of forgiveness"
          [Tradition.stoicism, Tradition.buddhism]).schema =
        Schema.object props sectionKeyNames ∧
      props.map Prod.fst = sectionKeyNames ∧
      ∀ p ∈ props, p.2 = Schema.object
        ([Tradition.stoicism, Tradition.buddhism].map (fun t => (t.name, Schema.string)))
        ([Tradition.stoicism, Tradition.buddhism].map Tradition.name) :=
  c6_response_schema_exact "The nature of forgiveness"
    [Tradition.stoicism, Tradition.buddhism] (by decide) (by decide) (by decide)

/-! ## C4 — validation guard rejects before any network call -/

/-- C4: when the question is the empty string or the traditions list is
empty, `handleGenerate` rejects the generation before any network call: the
guard returns, no request is made (so no malformed request is ever
produced), history is untouched and the run ends in the validation-rejected
outcome. -/
theorem c4_empty_input_rejected_before_network
    (question : String) (trads : List Tradition) (history : List StoredResult)
    (invoke : InvokeResult) (h : question = "" ∨ trads = []) :
    handleGenerate question trads history invoke =
      ⟨GenOutcome.rejected, history, false⟩ := by
  unfold handleGenerate
  rw [if_pos h]

/-- C4 witness: the theorem applied at the empty question with one selected
tradition — the run is rejected with no request made. -/
theorem c4_empty_input_rejected_before_network_apply :
    handleGenerate "" [Tradition.stoicism] [] (InvokeResult.ok none) =
      ⟨GenOutcome.rejected, [], false⟩ :=
  c4_empty_input_rejected_before_network "" [Tradition.stoicism] [] (InvokeResult.ok none)
    (Or.inl rfl)

/-! ## C2 — parse failures abort, but the schema shape is never checked -/

/-- C2 counterexample: the claim says a response whose text is valid JSON
but lacks the six required `SectionKey` properties fails generation and
leaves history unchanged.  On the response text "\x7b\x7d" — valid JSON parsing
to the empty object, which carries none of the six keys — `handleGenerate`
performs no shape validation: it assembles a result around the empty object,
reports success, and prepends it to the previously empty history, which now
has one entry. -/
theorem c2_valid_json_without_keys_is_stored :
    hasSixSectionKeys (Json.obj []) = false ∧
    (handleGenerate "The nature of forgiveness" [Tradition.stoicism] []
        (InvokeResult.ok (some (Json.obj [])))).outcome =
      GenOutcome.success ⟨"The nature of forgiveness", [Tradition.stoicism], Json.obj [], []⟩ ∧
    (handleGenerate "The nature of forgiveness" [Tradition.stoicism] []
        (InvokeResult.ok (some (Json.obj [])))).history.length = 1 :=
  ⟨rfl, rfl, rfl⟩

/-- C2 (amended): generation fails with the caught-and-alerted error and
history is exactly what it was before the call precisely when the model call
throws or the response text is not valid JSON (`JSON.parse` throws); a
response whose text is valid JSON is assembled into a `ComparisonResult` and
prepended to history regardless of whether it contains the six required
`SectionKey` properties — the handler performs no schema-shape validation. -/
theorem c2_invalid_json_aborts_history_unchanged
    (question : String) (trads : List Tradition) (history : List StoredResult)
    (h : ¬(question = "" ∨ trads = [])) :
    (handleGenerate question trads history (InvokeResult.ok none) =
        ⟨GenOutcome.alertFailure, history, true⟩) ∧
    (∀ e, handleGenerate question trads history (InvokeResult.error e) =
        ⟨GenOutcome.alertFailure, history, true⟩) ∧
    (∀ j, handleGenerate question trads history (InvokeResult.ok (some j)) =
        ⟨GenOutcome.success ⟨question, trads, j, []⟩,
         ⟨question, trads, j, []⟩ :: history, true⟩) := by
  refine ⟨?_, fun e => ?_, fun j => ?_⟩ <;>
    · unfold handleGenerate
      rw [if_neg h]

/-- C2 witness: the amended theorem applied at a concrete question and
tradition — an unparsable response leaves history unchanged, and a parsable
one is prepended. -/
theorem c2_invalid_json_aborts_history_unchanged_apply :
    (handleGenerate "Q" [Tradition.buddhism] [] (InvokeResult.ok none) =
        ⟨GenOutcome.alertFailure, [], true⟩) ∧
    (handleGenerate "Q" [Tradition.buddhism] [] (InvokeResult.error "503") =
        ⟨GenOutcome.alertFailure, [], true⟩) ∧
    (handleGenerate "Q" [Tradition.buddhism] [] (InvokeResult.ok (some Json.null)) =
        ⟨GenOutcome.success ⟨"Q", [Tradition.buddhism], Json.null, []⟩,
         [⟨"Q", [Tradition.buddhism], Json.null, []⟩], true⟩) :=
  have h := c2_invalid_json_aborts_history_unchanged "Q" [Tradition.buddhism] [] (by decide)
  ⟨h.1, h.2.1 "503", h.2.2 Json.null⟩

/-! ## C8 — history prepend and reload -/

/-- C8: adding a newly assembled result to the history store and reloading
yields exactly the new result followed by the original entries unchanged and
in their original order, with the length increased by exactly one. -/
theorem c8_history_prepend_roundtrip (H : List ComparisonResult) (r : ComparisonResult)
    (s : HistoryStorage) :
    loadHistory (saveHistory (addResultToHistory r H) s) = r :: H ∧
    (loadHistory (saveHistory (addResultToHistory r H) s)).length = H.length + 1 :=
  ⟨rfl, rfl⟩

/-! ## C5 — section render never reads an undefined cell -/

/-- C5: for a typed `ComparisonResult` (every section key present, per the
mapped type of src/types.ts) and any section/tradition pair, the rendered
cell is total — never an undefined read — and yields either the string the
response provided (when present and non-empty) or the defined
"Analysis unavailable." placeholder. -/
theorem c5_render_cell_defined (res : ComparisonResult) (key : SectionKey) (t : Tradition) :
    (∃ s, res.data key t = some s ∧ s ≠ "" ∧ renderSectionCell res key t = s) ∨
    renderSectionCell res key t = "Analysis unavailable." := by
  rcases h : res.data key t with _ | s
  · right
    simp [renderSectionCell, jsOrString, h]
  · by_cases hs : s = ""
    · right
      simp [renderSectionCell, jsOrString, h, hs]
    · left
      exact ⟨s, rfl, hs, by simp [renderSectionCell, jsOrString, h, hs]⟩

/-! ## C3 — dialogue transcript under failures -/

/-- C3 counterexample: the claim says a send whose model invocation fails
still leaves the user's message in the persisted transcript plus an
error-placeholder model entry (2 entries for one send).  Sending "Why?" to a
failing model from an empty transcript persists nothing: the catch block of
`handleSendDialogue` only raises an alert, so the transcript stays empty
instead of holding the claimed 2 entries. -/
theorem c3_failed_send_drops_user_message :
    runSends [] [("Why?", DialogueInvoke.failure)] = [] ∧
    (runSends [] [("Why?", DialogueInvoke.failure)]).length ≠ 2 := by
  refine ⟨?_, ?_⟩ <;> decide

/-- C3 (amended): for a sequence of awaited dialogue sends with non-blank
inputs, each successful send appends exactly a user entry followed by a
model entry, in send order, so the transcript afterwards is the original
transcript followed by two entries per successful send; a send whose model
invocation fails contributes nothing — neither the user's message nor any
placeholder is persisted (the handler only shows an alert), leaving the
transcript unchanged for that send. -/
theorem c3_transcript_appends_per_successful_send
    (tr : List ChatMessage) (sends : List (String × DialogueInvoke))
    (h : ∀ p ∈ sends, jsTrim p.1 ≠ "") :
    runSends tr sends = tr ++ transcriptOfSends sends ∧
    (runSends tr sends).length = tr.length + 2 * sends.countP (fun p => p.2.isOk) := by
  refine ⟨runSends_eq sends tr h, ?_⟩
  rw [runSends_eq sends tr h]
  simp [transcriptOfSends_length]

/-- C3 witness: the amended theorem applied to the concrete sequence
m1 (success), m2 (failure), m3 (success) from the empty transcript: the
persisted transcript holds the two entries of m1 followed by the two of m3 —
4 entries, m2 contributing none. -/
theorem c3_transcript_appends_per_successful_send_apply :
    runSends [] [("m1", DialogueInvoke.ok (some "r1")), ("m2", DialogueInvoke.failure),
        ("m3", DialogueInvoke.ok (some "r3"))] =
      [] ++ transcriptOfSends [("m1", DialogueInvoke.ok (some "r1")),
        ("m2", DialogueInvoke.failure), ("m3", DialogueInvoke.ok (some "r3"))] ∧
    (runSends [] [("m1", DialogueInvoke.ok (some "r1")), ("m2", DialogueInvoke.failure),
        ("m3", DialogueInvoke.ok (some "r3"))]).length =
      ([] : List ChatMessage).length + 2 * ([("m1", DialogueInvoke.ok (some "r1")),
        ("m2", DialogueInvoke.failure), ("m3", DialogueInvoke.ok (some "r3"))].countP
          (fun p => p.2.isOk)) :=
  c3_transcript_appends_per_successful_send [] _ (by decide)

/-! ## C9 — at most one outstanding dialogue send -/

/-- The loading flag counts the outstanding sends: one while loading, none
otherwise.  Preserved by every session event. -/
theorem dialogueStep_invariant (s : DialogueFlight)
    (h : s.outstanding = if s.isDialogueLoading then 1 else 0) (e : DialogueEvent) :
    (dialogueStep s e).outstanding =
      if (dialogueStep s e).isDialogueLoading then 1 else 0 := by
  rcases s with ⟨ld, n⟩
  cases e with
  | initiate input hasResult =>
    cases ld with
    | true => simp_all [dialogueStep]
    | false =>
      simp at h
      simp only [dialogueStep]
      split
      · simpa using h
      · simp [h]
  | settle =>
    cases ld with
    | true => simp_all [dialogueStep]
    | false => simp_all [dialogueStep]

/-- The outstanding-send invariant holds along every event trace from the
initial session state. -/
theorem foldl_dialogue_invariant (evs : List DialogueEvent) (s : DialogueFlight)
    (h : s.outstanding = if s.isDialogueLoading then 1 else 0) :
    (evs.foldl dialogueStep s).outstanding =
      if (evs.foldl dialogueStep s).isDialogueLoading then 1 else 0 := by
  induction evs generalizing s with
  | nil => exact h
  | cons e rest ih => exact ih _ (dialogueStep_invariant s h e)

/-- C9: while one dialogue send is in flight (the loading flag is set),
initiating another send is a no-op — the state is unchanged and no call is
started — and consequently along every event trace of the session at most
one send is ever outstanding. -/
theorem c9_at_most_one_outstanding_send :
    (∀ (s : DialogueFlight) (input : String) (hasResult : Bool),
        s.isDialogueLoading = true →
        dialogueStep s (DialogueEvent.initiate input hasResult) = s) ∧
    (∀ evs : List DialogueEvent, (evs.foldl dialogueStep dialogueInit).outstanding ≤ 1) := by
  constructor
  · intro s input hasResult hl
    simp [dialogueStep, hl]
  · intro evs
    have h := foldl_dialogue_invariant evs dialogueInit (by simp [dialogueInit])
    rw [h]
    split <;> omega

/-- C9 witness: the theorem applied at a loading state and at a concrete
trace that tries to initiate a second send while one is pending. -/
theorem c9_at_most_one_outstanding_send_apply :
    dialogueStep ⟨true, 1⟩ (DialogueEvent.initiate "And Taoism?" true) = ⟨true, 1⟩ ∧
    (([DialogueEvent.initiate "Q1" true, DialogueEvent.initiate "Q2" true,
        DialogueEvent.settle].foldl dialogueStep dialogueInit).outstanding ≤ 1) :=
  ⟨c9_at_most_one_outstanding_send.1 ⟨true, 1⟩ "And Taoism?" true rfl,
   c9_at_most_one_outstanding_send.2 _⟩

/-! ## C1 — fallback ordering and auth short-circuit -/

/-- C1: over the tier list [A, B] (distinct tiers), when tier A fails with a
non-authentication (transient) error the orchestrator invokes tier B exactly
once and, when B succeeds, reports `Done` carrying B's output; when tier A
fails with an authentication error, tier B is never invoked and the distinct
`NeedsCredential` outcome (not a generic `Failed`) is surfaced. -/
theorem c1_fallback_ordering (invoke : String → TierOutcome) (A B out e : String)
    (hAB : A ≠ B) :
    (invoke A = TierOutcome.transientError e → invoke B = TierOutcome.success out →
      runFallback invoke [A, B] none = (FallbackOutcome.done B out, [A, B]) ∧
      (runFallback invoke [A, B] none).2.count B = 1) ∧
    (invoke A = TierOutcome.authError →
      runFallback invoke [A, B] none = (FallbackOutcome.needsCredential, [A]) ∧
      B ∉ (runFallback invoke [A, B] none).2) := by
  constructor
  · intro hA hB
    have hrun : runFallback invoke [A, B] none = (FallbackOutcome.done B out, [A, B]) := by
      simp [runFallback, hA, hB]
    refine ⟨hrun, ?_⟩
    rw [hrun]
    simp [List.count_cons, hAB]
  · intro hA
    have hrun : runFallback invoke [A, B] none = (FallbackOutcome.needsCredential, [A]) := by
      simp [runFallback, hA]
    refine ⟨hrun, ?_⟩
    rw [hrun]
    simp
    exact fun hBA => hAB hBA.symm

/-- C1 witness: the theorem applied to the pro → flash tier list with a
concrete transiently-failing and a concrete auth-failing invocation map. -/
theorem c1_fallback_ordering_apply :
    (runFallback invokeTransientThenOk
        ["gemini-3-pro-preview", "gemini-3-flash-preview"] none =
      (FallbackOutcome.done "gemini-3-flash-preview" "flash output",
        ["gemini-3-pro-preview", "gemini-3-flash-preview"]) ∧
      (runFallback invokeTransientThenOk
        ["gemini-3-pro-preview", "gemini-3-flash-preview"] none).2.count
          "gemini-3-flash-preview" = 1) ∧
    (runFallback invokeAuthFail ["gemini-3-pro-preview", "gemini-3-flash-preview"] none =
      (FallbackOutcome.needsCredential, ["gemini-3-pro-preview"]) ∧
      "gemini-3-flash-preview" ∉
        (runFallback invokeAuthFail
          ["gemini-3-pro-preview", "gemini-3-flash-preview"] none).2) :=
  ⟨(c1_fallback_ordering invokeTransientThenOk "gemini-3-pro-preview"
      "gemini-3-flash-preview" "flash output" "503 overloaded" (by decide)).1
      (by decide) (by decide),
   (c1_fallback_ordering invokeAuthFail "gemini-3-pro-preview" "gemini-3-flash-preview"
      "flash output" "503 overloaded" (by decide)).2 (by decide)⟩

/-! ## C10 — selection list stays duplicate-free -/

/-- C10: a toggle removes the tradition if present and appends it only if
absent (and the count is below 3), so after any sequence of toggle
operations starting from the initial empty selection the selected list's
elements are pairwise distinct. -/
theorem c10_selection_nodup :
    (∀ (l : List Tradition) (t : Tradition), t ∈ l →
        handleToggleTradition l t = l.filter (fun x => x ≠ t)) ∧
    (∀ (l : List Tradition) (t : Tradition), t ∉ l → l.length < 3 →
        handleToggleTradition l t = l ++ [t]) ∧
    (∀ ops : List Tradition, (ops.foldl handleToggleTradition []).Nodup) := by
  refine ⟨?_, ?_, fun ops => foldl_toggle_nodup ops [] List.nodup_nil⟩
  · intro l t hmem
    unfold handleToggleTradition
    rw [if_pos hmem]
  · intro l t hmem hlt
    unfold handleToggleTradition
    rw [if_neg hmem, if_pos hlt]

/-- C10 witness: the theorem applied at concrete inputs — toggling a
selected tradition filters it out, toggling a fresh one under the cap
appends it, and a concrete toggle sequence yields a duplicate-free list. -/
theorem c10_selection_nodup_apply :
    (handleToggleTradition [Tradition.stoicism] Tradition.stoicism =
      [Tradition.stoicism].filter (fun x => x ≠ Tradition.stoicism)) ∧
    (handleToggleTradition [Tradition.stoicism] Tradition.buddhism =
      [Tradition.stoicism] ++ [Tradition.buddhism]) ∧
    (([Tradition.stoicism, Tradition.buddhism, Tradition.stoicism].foldl
        handleToggleTradition []).Nodup) :=
  ⟨c10_selection_nodup.1 _ _ (by decide),
   c10_selection_nodup.2.1 _ _ (by decide) (by decide),
   c10_selection_nodup.2.2 _⟩

end TraditionExplorer
